import Mathlib

/-!
Verification of `pr-merge-announcer/scripts/post_to_slack.py`.

The script is embedded shallowly:

* `pySplitCore` / `pySplit` embed Python's `str.split(sep)` for a
  one-character separator (keeping empty segments, as Python does).
* `pyStrip` embeds Python's `str.strip()` over the ASCII whitespace set.
* `PullRequest` is the record parsed from the fetch command's JSON output.
* `fetch_pr` embeds the function of the same name; the external process
  result is a `GhResult`; `Except.error` models printing to stderr followed
  by `sys.exit(1)`.
* `format_message` embeds the function of the same name; the result is
  `Option String`, where `none` models the `IndexError` raised by
  `url.split("/")[4]` when the split has fewer than five segments.
* `post_to_slack` embeds the function of the same name.  The HTTP layer is
  a transport function `HttpRequest → HttpOutcome`; `HttpOutcome.response`
  models `urlopen` returning normally, `HttpOutcome.httpError` models a
  raised `urllib.error.HTTPError`, and `HttpOutcome.urlError` a raised
  `urllib.error.URLError`.  The result records the boolean return value,
  the single request issued, and the lines printed to stderr.
* `main` embeds the function of the same name after argument parsing:
  `Args` holds the parsed command line, `World` the environment variable
  and the behaviour of the two external effects.  The result is
  `Option RunResult`; `none` models an uncaught exception (the only source
  being `format_message`), while `some r` records the exit code, stdout
  lines, stderr lines and HTTP requests issued.
-/

/-- Python `str.isspace` characters relevant to `str.strip()` (ASCII part). -/
def pyIsSpace (c : Char) : Bool :=
  c = ' ' || c = '\t' || c = '\n' || c = '\r' || c = '\x0b' || c = '\x0c'

/-- Python `s.strip()`: drop whitespace from both ends. -/
def pyStrip (s : String) : String :=
  String.mk (((s.data.dropWhile pyIsSpace).reverse.dropWhile pyIsSpace).reverse)

/-- Python `str.split(sep)` for a one-character `sep`, over the character
list, with an accumulator for the segment being read (in reverse).  Empty
segments are kept, exactly as in Python. -/
def pySplitCore (sep : Char) : List Char → List Char → List (List Char)
  | [], acc => [acc.reverse]
  | c :: cs, acc =>
    if c = sep then acc.reverse :: pySplitCore sep cs []
    else pySplitCore sep cs (c :: acc)

/-- Python `s.split(sep)` for a one-character separator. -/
def pySplit (s : String) (sep : Char) : List String :=
  (pySplitCore sep s.data []).map String.mk

/-- The record `gh pr view --json number,title,url,headRefName,baseRefName,body`
produces, as consumed by the script. -/
structure PullRequest where
  number : Nat
  title : String
  url : String
  headRefName : String
  baseRefName : String
  body : String
deriving DecidableEq, Repr

/-- Result of the external `gh` subprocess (`subprocess.run`).  `stdout` is
the parsed JSON payload: the script feeds `result.stdout` straight to
`json.loads`, and malformed JSON is out of scope (spec section 4.1), so the
successful parse is modelled structurally. -/
structure GhResult where
  returncode : Nat
  stdout : PullRequest
  stderr : String

/-- `fetch_pr`: on non-zero exit status of the external process, print the
process stderr (stripped) to the error stream and `sys.exit(1)` — modelled
as `Except.error` carrying the printed line; otherwise return the parsed
pull request. -/
def fetch_pr (pr_number : Nat) (gh : GhResult) : Except String PullRequest :=
  if gh.returncode ≠ 0 then
    Except.error ("Error fetching PR #" ++ toString pr_number ++ ": " ++ pyStrip gh.stderr)
  else
    Except.ok gh.stdout

/-- `format_message`: extracts the repo name as `pr["url"].split("/")[4]`
and interpolates the five-line template.  `none` models the `IndexError`
when the split has no index-4 element. -/
def format_message (pr : PullRequest) (summary : String) : Option String :=
  match (pySplit pr.url '/')[4]? with
  | none => none
  | some repo_name =>
    some ("📂 *Repo*: " ++ repo_name ++ "\n"
      ++ "✅ *PR #" ++ toString pr.number ++ " Merged* — <" ++ pr.url ++ "|" ++ pr.title ++ ">\n"
      ++ "🔀 *Branch*: `" ++ pr.headRefName ++ "` → `" ++ pr.baseRefName ++ "`\n"
      ++ "📝 *Summary*:\n"
      ++ ">" ++ summary)

/-- The JSON body `json.dumps(. . .)` built from `message`: a one-key object
whose `"text"` key holds the message. -/
structure SlackPayload where
  text : String
deriving DecidableEq, Repr

/-- The `urllib.request.Request` built by `post_to_slack`. -/
structure HttpRequest where
  url : String
  payload : SlackPayload
  contentType : String
  method : String
deriving DecidableEq, Repr

/-- What `urllib.request.urlopen` does with a request: return a response
with a status, raise `urllib.error.HTTPError`, or raise
`urllib.error.URLError`. -/
inductive HttpOutcome where
  | response (status : Nat)
  | httpError (code : Nat) (reason : String)
  | urlError (reason : String)
deriving DecidableEq, Repr

/-- The request `post_to_slack` constructs: POST to the webhook url,
`Content-Type: application/json` header, body with the message under the
`"text"` key. -/
def slackRequest (webhook_url : String) (message : String) : HttpRequest :=
  { url := webhook_url
    payload := { text := message }
    contentType := "application/json"
    method := "POST" }

/-- The observable result of `post_to_slack`: its boolean return value, the
requests it issued, and the lines it printed to the error stream. -/
structure PostResult where
  ok : Bool
  requests : List HttpRequest
  stderr : List String
deriving DecidableEq, Repr

/-- `post_to_slack`: issue the single POST; `True` exactly when the response
status is 200; any other returned status, a raised `HTTPError`, or a raised
`URLError` logs a line to stderr and returns `False`. -/
def post_to_slack (net : HttpRequest → HttpOutcome) (webhook_url : String)
    (message : String) : PostResult :=
  match net (slackRequest webhook_url message) with
  | HttpOutcome.response status =>
    if status == 200 then
      { ok := true, requests := [slackRequest webhook_url message], stderr := [] }
    else
      { ok := false, requests := [slackRequest webhook_url message],
        stderr := ["Slack returned status " ++ toString status] }
  | HttpOutcome.httpError code reason =>
    { ok := false, requests := [slackRequest webhook_url message],
      stderr := ["Slack webhook error: " ++ toString code ++ " " ++ reason] }
  | HttpOutcome.urlError reason =>
    { ok := false, requests := [slackRequest webhook_url message],
      stderr := ["Network error: " ++ reason] }

/-- The command-line arguments after `argparse` (the script reaches `main`'s
body only with a valid parse: `pr_number` and `summary` present). -/
structure Args where
  pr_number : Nat
  summary : String
  repo : Option String
  webhook_url : Option String
  dry_run : Bool

/-- The ambient world `main` runs in: the `SLACK_WEBHOOK_URL` environment
variable, the external subprocess result, and the HTTP transport. -/
structure World where
  env_webhook : Option String
  gh : GhResult
  net : HttpRequest → HttpOutcome

/-- Observable result of a `main` run: exit code, stdout lines (one per
`print` call, without the implicit trailing newline), stderr lines, and the
HTTP requests issued. -/
structure RunResult where
  exitCode : Nat
  stdout : List String
  stderr : List String
  requests : List HttpRequest
deriving DecidableEq, Repr

/-- Python `a or b` on optional strings: `a` unless it is `None` or the
empty string (falsy), else `b`. -/
def pyOrStr : Option String → Option String → Option String
  | some a, b => if a = "" then b else some a
  | none, b => b

/-- The configuration-error line printed when no webhook URL resolves. -/
def configError : String :=
  "Error: No webhook URL provided. Use --webhook-url or set SLACK_WEBHOOK_URL env var."

/-- The script function `main` after argument parsing (named `main_run` here
because Lean reserves `main`).  `none` models an uncaught exception
(an `IndexError` escaping `format_message`).  The `match` on the resolved
webhook URL mirrors `if not webhook_url:`: both `None` and the empty string
are falsy. -/
def main_run (args : Args) (w : World) : Option RunResult :=
  match fetch_pr args.pr_number w.gh with
  | Except.error e =>
    some { exitCode := 1, stdout := [], stderr := [e], requests := [] }
  | Except.ok pr =>
    match format_message pr args.summary with
    | none => none
    | some message =>
      if args.dry_run then
        some { exitCode := 0
               stdout := ["=== DRY RUN — Message preview ===\n", message, "\n=== End preview ==="]
               stderr := []
               requests := [] }
      else
        match pyOrStr args.webhook_url w.env_webhook with
        | none =>
          some { exitCode := 1, stdout := [], stderr := [configError], requests := [] }
        | some u =>
          if u = "" then
            some { exitCode := 1, stdout := [], stderr := [configError], requests := [] }
          else
            let r := post_to_slack w.net u message
            if r.ok then
              some { exitCode := 0
                     stdout := ["✅ Posted PR #" ++ toString pr.number ++ " merge announcement to Slack!"]
                     stderr := r.stderr
                     requests := r.requests }
            else
              some { exitCode := 1
                     stdout := ["\nMessage was:\n", message]
                     stderr := r.stderr ++ ["❌ Failed to post to Slack."]
                     requests := r.requests }

/-- The pull request of the spec's end-to-end scenario A, used as a concrete
input for witnesses. -/
def samplePR : PullRequest :=
  { number := 7
    title := "Fix bug"
    url := "https://github.com/acme/widgets/pull/7"
    headRefName := "fix-bug"
    baseRefName := "main"
    body := "" }

/-- A successful fetch of `samplePR` (exit status 0). -/
def sampleGhOk : GhResult :=
  { returncode := 0, stdout := samplePR, stderr := "" }

/-- The message `format_message` produces for `samplePR` and the scenario-A
summary. -/
def sampleMessage : String :=
  "📂 *Repo*: widgets\n✅ *PR #7 Merged* — <https://github.com/acme/widgets/pull/7|Fix bug>\n🔀 *Branch*: `fix-bug` → `main`\n📝 *Summary*:\n>Fixed the widget crash"

/-- A transport whose webhook answers every request with status 500
(the spec's scenario C). -/
def net500 : HttpRequest → HttpOutcome := fun _ => HttpOutcome.response 500

/-- The run result of the configuration-error exit path. -/
def configRunResult : RunResult :=
  { exitCode := 1, stdout := [], stderr := [configError], requests := [] }

/-- A transport that raises `URLError` on every request (connection refused). -/
def netRefused : HttpRequest → HttpOutcome :=
  fun _ => HttpOutcome.urlError ("Connection refused")

/-- A failed fetch of PR 7 (exit status 1, error text on the process stderr). -/
def sampleGhFail : GhResult :=
  { returncode := 1, stdout := samplePR, stderr := "  gh: no pull requests found\n" }

/-- Arguments of a plain non-dry-run invocation with no webhook override. -/
def noUrlArgs : Args :=
  { pr_number := 7, summary := "Fixed the widget crash", repo := none
    webhook_url := none, dry_run := false }

/-- A world with a good fetch, no environment webhook, and a 500-webhook. -/
def noUrlWorld : World :=
  { env_webhook := none, gh := sampleGhOk, net := net500 }

/-- Arguments passing the webhook URL explicitly (spec scenario C setup). -/
def postArgs : Args :=
  { pr_number := 7, summary := "Fixed the widget crash", repo := none
    webhook_url := some ("https://hooks.example/x"), dry_run := false }

/-- Arguments of a dry-run invocation. -/
def dryArgs : Args :=
  { pr_number := 7, summary := "Fixed the widget crash", repo := none
    webhook_url := none, dry_run := true }

/-- Arguments passing `--webhook-url` as the empty string. -/
def emptyArgArgs : Args :=
  { pr_number := 7, summary := "Fixed the widget crash", repo := none
    webhook_url := some (""), dry_run := false }

/-- A world whose environment variable carries the webhook URL. -/
def envWorld : World :=
  { env_webhook := some ("https://hooks.example/env"), gh := sampleGhOk, net := net500 }

theorem pySplitCore_cons_eq (sep : Char) (cs acc : List Char) :
    pySplitCore sep (sep :: cs) acc = acc.reverse :: pySplitCore sep cs [] := by
  simp [pySplitCore]

theorem pySplitCore_cons_ne (sep c : Char) (cs acc : List Char) (h : c ≠ sep) :
    pySplitCore sep (c :: cs) acc = pySplitCore sep cs (c :: acc) := by
  simp [pySplitCore, h]

theorem pySplitCore_append_sep (sep : Char) (xs rest acc : List Char) (h : sep ∉ xs) :
    pySplitCore sep (xs ++ sep :: rest) acc
      = (acc.reverse ++ xs) :: pySplitCore sep rest [] := by
  induction xs generalizing acc with
  | nil => simp [pySplitCore_cons_eq]
  | cons x xs ih =>
    have hx : x ≠ sep := fun hq => h (by simp [hq])
    rw [List.cons_append, pySplitCore_cons_ne sep x _ acc hx,
      ih _ (fun hm => h (List.mem_cons_of_mem _ hm))]
    simp

/-- Claim C1: for every pull-request record and summary string (with the
index-4 segment of the split url existing, the spec's data-model invariant),
`format_message` returns exactly the five-line template of spec section 6
with the fields interpolated: repo line, merged-PR heading linking title to
url and showing the PR number, branch line, summary label line, and a final
line that is `>` followed by the summary verbatim, with the literal
emoji/label prefixes in that fixed order. -/
theorem format_message_template (pr : PullRequest) (summary repo_name : String)
    (h : (pySplit pr.url '/')[4]? = some repo_name) :
    format_message pr summary
      = some ("📂 *Repo*: " ++ repo_name ++ "\n"
          ++ "✅ *PR #" ++ toString pr.number ++ " Merged* — <" ++ pr.url ++ "|" ++ pr.title ++ ">\n"
          ++ "🔀 *Branch*: `" ++ pr.headRefName ++ "` → `" ++ pr.baseRefName ++ "`\n"
          ++ "📝 *Summary*:\n"
          ++ ">" ++ summary) := by
  unfold format_message
  rw [h]

/-- Witness for C1 at the spec's scenario-A pull request. -/
theorem format_message_template_witness :
    format_message samplePR ("Fixed the widget crash")
      = some ("📂 *Repo*: widgets\n✅ *PR #7 Merged* — <https://github.com/acme/widgets/pull/7|Fix bug>\n🔀 *Branch*: `fix-bug` → `main`\n📝 *Summary*:\n>Fixed the widget crash") := by
  rw [format_message_template samplePR ("Fixed the widget crash") ("widgets") (by decide)]
  decide

/-- Claim C4: for every URL of the canonical shape
`https://host/owner/repo/pull/N` (the path segments containing no `/`),
splitting the url on `/` and taking the zero-based index-4 segment — the
extraction `format_message` performs — yields exactly the repo segment. -/
theorem repo_name_extraction (host owner repo n : String)
    (h1 : ('/' : Char) ∉ host.data) (h2 : ('/' : Char) ∉ owner.data)
    (h3 : ('/' : Char) ∉ repo.data) :
    (pySplit ("https://" ++ host ++ "/" ++ owner ++ "/" ++ repo ++ "/pull/" ++ n) '/')[4]?
      = some repo := by
  unfold pySplit
  have hd : ("https://" ++ host ++ "/" ++ owner ++ "/" ++ repo ++ "/pull/" ++ n).data
      = ['h','t','t','p','s',':'] ++ '/' :: ([] ++ '/' :: (host.data ++ '/' :: (owner.data
          ++ '/' :: (repo.data ++ '/' :: ('p' :: 'u' :: 'l' :: 'l' :: '/' :: n.data))))) := by
    have l1 : ("https://").data = ['h','t','t','p','s',':','/','/'] := rfl
    have l2 : ("/").data = ['/'] := rfl
    have l3 : ("/pull/").data = ['/', 'p', 'u', 'l', 'l', '/'] := rfl
    simp [String.data_append, l1, l2, l3]
  rw [hd]
  rw [pySplitCore_append_sep '/' (['h','t','t','p','s',':']) _ [] (by decide)]
  rw [pySplitCore_append_sep '/' [] _ [] (by decide)]
  rw [pySplitCore_append_sep '/' host.data _ [] h1]
  rw [pySplitCore_append_sep '/' owner.data _ [] h2]
  rw [pySplitCore_append_sep '/' repo.data _ [] h3]
  simp

/-- Witness for C4 at the spec's example `https://github.com/acme/widgets/pull/7`. -/
theorem repo_name_extraction_witness :
    (pySplit ("https://" ++ "github.com" ++ "/" ++ "acme" ++ "/" ++ "widgets" ++ "/" ++ "pull" ++ "/" ++ "7") '/')[4]?
      = some ("widgets") := by
  have h := repo_name_extraction ("github.com") ("acme") ("widgets") ("7")
    (by decide) (by decide) (by decide)
  simpa using h

/-- Counterexample to C5 as stated: a fetched record whose `url` is a single
segment makes `format_message` fail (the embedded `none` models the Python
`IndexError` raised by `url.split("/")[4]`), so stage 3 does not always
succeed regardless of the shape of the fetched url. -/
theorem format_message_short_url_fails :
    format_message
      { number := 1, title := "t", url := "u", headRefName := "h",
        baseRefName := "b", body := "" } ("s") = none := by
  decide

/-- Claim C5 (amended): `format_message` succeeds exactly when the fetched
url splits on `/` into at least five segments (so the index-4 access is in
range); on any url violating that invariant it fails with an `IndexError`. -/
theorem format_message_isSome_iff (pr : PullRequest) (summary : String) :
    (format_message pr summary).isSome = ((pySplit pr.url '/')[4]?).isSome := by
  unfold format_message
  cases (pySplit pr.url '/')[4]? <;> rfl

theorem fetch_pr_ok (pr_number : Nat) (gh : GhResult) (h : gh.returncode = 0) :
    fetch_pr pr_number gh = Except.ok gh.stdout := by
  unfold fetch_pr
  rw [if_neg (by simp [h])]

theorem post_to_slack_requests_eq (net : HttpRequest → HttpOutcome) (url m : String) :
    (post_to_slack net url m).requests = [slackRequest url m] := by
  unfold post_to_slack
  cases net (slackRequest url m) with
  | response status => by_cases hs : status = 200 <;> simp [hs]
  | httpError code reason => rfl
  | urlError reason => rfl

theorem main_run_eq_error (args : Args) (w : World) (h : w.gh.returncode ≠ 0) :
    main_run args w
      = some { exitCode := 1, stdout := []
               stderr := ["Error fetching PR #" ++ toString args.pr_number ++ ": " ++ pyStrip w.gh.stderr]
               requests := [] } := by
  unfold main_run fetch_pr
  rw [if_pos h]

theorem main_run_fmt_none (args : Args) (w : World)
    (h0 : w.gh.returncode = 0)
    (hfm : format_message w.gh.stdout args.summary = none) :
    main_run args w = none := by
  unfold main_run
  rw [fetch_pr_ok args.pr_number w.gh h0]
  simp [hfm]

theorem main_run_dry (args : Args) (w : World) (msg : String)
    (h0 : w.gh.returncode = 0)
    (hfm : format_message w.gh.stdout args.summary = some msg)
    (hdry : args.dry_run = true) :
    main_run args w
      = some { exitCode := 0
               stdout := ["=== DRY RUN — Message preview ===\n", msg, "\n=== End preview ==="]
               stderr := [], requests := [] } := by
  unfold main_run
  rw [fetch_pr_ok args.pr_number w.gh h0]
  simp [hfm, hdry]

theorem main_run_config (args : Args) (w : World) (msg : String)
    (h0 : w.gh.returncode = 0)
    (hfm : format_message w.gh.stdout args.summary = some msg)
    (hdry : args.dry_run = false)
    (hres : pyOrStr args.webhook_url w.env_webhook = none) :
    main_run args w = some configRunResult := by
  unfold main_run
  rw [fetch_pr_ok args.pr_number w.gh h0]
  simp [hfm, hdry, hres, configRunResult]

theorem main_run_config_empty (args : Args) (w : World) (msg : String)
    (h0 : w.gh.returncode = 0)
    (hfm : format_message w.gh.stdout args.summary = some msg)
    (hdry : args.dry_run = false)
    (hres : pyOrStr args.webhook_url w.env_webhook = some "") :
    main_run args w = some configRunResult := by
  unfold main_run
  rw [fetch_pr_ok args.pr_number w.gh h0]
  simp [hfm, hdry, hres, configRunResult]

theorem main_run_send (args : Args) (w : World) (msg u : String)
    (h0 : w.gh.returncode = 0)
    (hfm : format_message w.gh.stdout args.summary = some msg)
    (hdry : args.dry_run = false)
    (hres : pyOrStr args.webhook_url w.env_webhook = some u)
    (hu : u ≠ "") :
    main_run args w
      = (if (post_to_slack w.net u msg).ok then
          some { exitCode := 0
                 stdout := ["✅ Posted PR #" ++ toString w.gh.stdout.number ++ " merge announcement to Slack!"]
                 stderr := (post_to_slack w.net u msg).stderr
                 requests := (post_to_slack w.net u msg).requests }
        else
          some { exitCode := 1
                 stdout := ["\nMessage was:\n", msg]
                 stderr := (post_to_slack w.net u msg).stderr ++ ["❌ Failed to post to Slack."]
                 requests := (post_to_slack w.net u msg).requests }) := by
  unfold main_run
  rw [fetch_pr_ok args.pr_number w.gh h0]
  simp [hfm, hdry, hres, hu]

/-- Claim C2: `post_to_slack` returns `True` if and only if the HTTP
response to the single POST has status exactly 200; for every other
returned status (201, 301, 404, 500, . . .) it reports the status to the
error stream and returns `False` without raising. -/
theorem post_to_slack_success_iff_200 (net : HttpRequest → HttpOutcome) (url msg : String) :
    ((post_to_slack net url msg).ok = true
        ↔ net (slackRequest url msg) = HttpOutcome.response 200)
    ∧ ∀ status : Nat, net (slackRequest url msg) = HttpOutcome.response status → status ≠ 200 →
        (post_to_slack net url msg).ok = false
        ∧ (post_to_slack net url msg).stderr = ["Slack returned status " ++ toString status] := by
  constructor
  · unfold post_to_slack
    cases h : net (slackRequest url msg) with
    | response status =>
      by_cases hs : status = 200
      · subst hs
        simp
      · simp [hs]
    | httpError code reason => simp
    | urlError reason => simp
  · intro status h hs
    unfold post_to_slack
    rw [h]
    simp [hs]

/-- Witness for C2: a webhook answering 500 yields `False` and the status
report on stderr. -/
theorem post_to_slack_success_iff_200_witness :
    (post_to_slack net500 ("https://hooks.example/x") ("m")).ok = false
    ∧ (post_to_slack net500 ("https://hooks.example/x") ("m")).stderr
        = ["Slack returned status " ++ toString (500 : Nat)] :=
  (post_to_slack_success_iff_200 net500 ("https://hooks.example/x") ("m")).2 500 rfl (by decide)

/-- Claim C3: `post_to_slack` issues exactly one HTTP POST, with body
`text := message` and header `Content-Type: application/json`, and always
returns a boolean: a raised `HTTPError` or `URLError` is caught, logged to
the error stream, and turned into `False` (no exception escapes — the
embedding is a total function into `PostResult`). -/
theorem post_to_slack_single_post_total (net : HttpRequest → HttpOutcome) (url msg : String) :
    (post_to_slack net url msg).requests = [slackRequest url msg]
    ∧ (slackRequest url msg).method = "POST"
    ∧ (slackRequest url msg).contentType = "application/json"
    ∧ (slackRequest url msg).url = url
    ∧ (slackRequest url msg).payload = { text := msg }
    ∧ (∀ code reason, net (slackRequest url msg) = HttpOutcome.httpError code reason →
        (post_to_slack net url msg).ok = false
        ∧ (post_to_slack net url msg).stderr
            = ["Slack webhook error: " ++ toString code ++ " " ++ reason])
    ∧ (∀ reason, net (slackRequest url msg) = HttpOutcome.urlError reason →
        (post_to_slack net url msg).ok = false
        ∧ (post_to_slack net url msg).stderr = ["Network error: " ++ reason]) := by
  refine ⟨post_to_slack_requests_eq net url msg, rfl, rfl, rfl, rfl, ?_, ?_⟩
  · intro code reason h
    unfold post_to_slack
    rw [h]
    simp
  · intro reason h
    unfold post_to_slack
    rw [h]
    simp

/-- Witness for C3: a connection-refused transport still yields the one
request, `False`, and a network-error log line. -/
theorem post_to_slack_single_post_total_witness :
    (post_to_slack netRefused ("https://hooks.example/x") ("m")).requests
        = [slackRequest ("https://hooks.example/x") ("m")]
    ∧ (post_to_slack netRefused ("https://hooks.example/x") ("m")).ok = false
    ∧ (post_to_slack netRefused ("https://hooks.example/x") ("m")).stderr
        = ["Network error: " ++ "Connection refused"] := by
  have h := post_to_slack_single_post_total netRefused ("https://hooks.example/x") ("m")
  exact ⟨h.1, (h.2.2.2.2.2.2 ("Connection refused") rfl).1,
    (h.2.2.2.2.2.2 ("Connection refused") rfl).2⟩

/-- Claim C6: whenever the external fetch command exits non-zero, the
program writes that process's error output (stripped) to the error stream
and terminates immediately with exit code 1 — no retry, no stdout output,
and no HTTP request, so the formatting and publishing stages never run. -/
theorem fetch_failure_fail_fast (args : Args) (w : World) (h : w.gh.returncode ≠ 0) :
    main_run args w
      = some { exitCode := 1, stdout := []
               stderr := ["Error fetching PR #" ++ toString args.pr_number ++ ": " ++ pyStrip w.gh.stderr]
               requests := [] } :=
  main_run_eq_error args w h

/-- Witness for C6 at a concrete failed fetch. -/
theorem fetch_failure_fail_fast_witness :
    main_run noUrlArgs { env_webhook := none, gh := sampleGhFail, net := net500 }
      = some { exitCode := 1, stdout := []
               stderr := ["Error fetching PR #7: gh: no pull requests found"]
               requests := [] } := by
  rw [fetch_failure_fail_fast noUrlArgs { env_webhook := none, gh := sampleGhFail, net := net500 }
    (by decide)]
  decide

/-- Claim C7: in non-dry-run mode with no `--webhook-url` argument and no
`SLACK_WEBHOOK_URL` environment value, the program exits with code 1 and
the configuration-error message on the error stream, with no HTTP request
issued; the resolution takes the explicit argument first (when non-empty)
and the environment variable second. -/
theorem missing_webhook_config_error (args : Args) (w : World) (msg : String)
    (hrc : w.gh.returncode = 0)
    (hfmt : format_message w.gh.stdout args.summary = some msg)
    (hdry : args.dry_run = false)
    (harg : args.webhook_url = none)
    (henv : w.env_webhook = none) :
    main_run args w = some configRunResult
    ∧ (∀ (s : String) (e : Option String), s ≠ "" → pyOrStr (some s) e = some s)
    ∧ (∀ e : Option String, pyOrStr none e = e) := by
  refine ⟨main_run_config args w msg hrc hfmt hdry ?_, ?_, ?_⟩
  · rw [harg, henv]
    rfl
  · intro s e hs
    simp [pyOrStr, hs]
  · intro e
    rfl

/-- Witness for C7 at a concrete run with no webhook configured. -/
theorem missing_webhook_config_error_witness :
    main_run noUrlArgs noUrlWorld = some configRunResult :=
  (missing_webhook_config_error noUrlArgs noUrlWorld sampleMessage rfl (by decide) rfl rfl rfl).1

/-- Claim C8: with fetch succeeded and a webhook URL resolved, a failed
publish prints the failure notice to the error stream (after the publisher's
own error line), echoes the full message body to standard output, and exits
1; a successful publish prints the one-line confirmation with the PR number
and exits 0. -/
theorem publish_outcome_reporting (args : Args) (w : World) (msg u : String)
    (hrc : w.gh.returncode = 0)
    (hfmt : format_message w.gh.stdout args.summary = some msg)
    (hdry : args.dry_run = false)
    (hres : pyOrStr args.webhook_url w.env_webhook = some u)
    (hu : u ≠ "") :
    ((post_to_slack w.net u msg).ok = false →
      main_run args w
        = some { exitCode := 1
                 stdout := ["\nMessage was:\n", msg]
                 stderr := (post_to_slack w.net u msg).stderr ++ ["❌ Failed to post to Slack."]
                 requests := (post_to_slack w.net u msg).requests })
    ∧ ((post_to_slack w.net u msg).ok = true →
      main_run args w
        = some { exitCode := 0
                 stdout := ["✅ Posted PR #" ++ toString w.gh.stdout.number ++ " merge announcement to Slack!"]
                 stderr := (post_to_slack w.net u msg).stderr
                 requests := (post_to_slack w.net u msg).requests }) := by
  have hmain := main_run_send args w msg u hrc hfmt hdry hres hu
  constructor
  · intro hok
    rw [hmain, if_neg (by simp [hok])]
  · intro hok
    rw [hmain, if_pos hok]

/-- Witness for C8: scenario C — the webhook answers 500, the program
reports, echoes the message, and exits 1. -/
theorem publish_outcome_reporting_witness :
    main_run postArgs noUrlWorld
      = some { exitCode := 1
               stdout := ["\nMessage was:\n", sampleMessage]
               stderr := ["Slack returned status 500", "❌ Failed to post to Slack."]
               requests := [slackRequest ("https://hooks.example/x") sampleMessage] } := by
  have h := (publish_outcome_reporting postArgs noUrlWorld sampleMessage ("https://hooks.example/x")
    rfl (by decide) rfl (by decide) (by decide)).1 (by decide)
  rw [h]
  decide

/-- Claim C9: in dry-run mode no HTTP request is ever issued in any run,
and when the fetch succeeds (and the fetched url is well-formed so the
formatter succeeds) the program prints the message framed by the preview
markers and exits 0; the result is the same for every webhook argument,
every environment value, and every transport, so neither is consulted. -/
theorem dry_run_no_network (args : Args) (w : World) (hdry : args.dry_run = true) :
    (∀ r, main_run args w = some r → r.requests = [])
    ∧ (∀ msg, w.gh.returncode = 0 → format_message w.gh.stdout args.summary = some msg →
        main_run args w
          = some { exitCode := 0
                   stdout := ["=== DRY RUN — Message preview ===\n", msg, "\n=== End preview ==="]
                   stderr := [], requests := [] })
    ∧ (∀ (u e : Option String) (n : HttpRequest → HttpOutcome),
        main_run { args with webhook_url := u } { w with env_webhook := e, net := n }
          = main_run args w) := by
  refine ⟨?_, ?_, ?_⟩
  · intro r hr
    by_cases h0 : w.gh.returncode = 0
    · cases hfm : format_message w.gh.stdout args.summary with
      | none =>
        rw [main_run_fmt_none args w h0 hfm] at hr
        exact Option.noConfusion hr
      | some m =>
        rw [main_run_dry args w m h0 hfm hdry] at hr
        injection hr with hr2
        rw [← hr2]
    · rw [main_run_eq_error args w h0] at hr
      injection hr with hr2
      rw [← hr2]
  · intro msg h0 hfm
    exact main_run_dry args w msg h0 hfm hdry
  · intro u e n
    by_cases h0 : w.gh.returncode = 0
    · cases hfm : format_message w.gh.stdout args.summary with
      | none =>
        rw [main_run_fmt_none { args with webhook_url := u }
          { w with env_webhook := e, net := n } h0 hfm, main_run_fmt_none args w h0 hfm]
      | some m =>
        rw [main_run_dry { args with webhook_url := u }
          { w with env_webhook := e, net := n } m h0 hfm hdry,
          main_run_dry args w m h0 hfm hdry]
    · rw [main_run_eq_error { args with webhook_url := u }
        { w with env_webhook := e, net := n } h0, main_run_eq_error args w h0]

/-- Witness for C9: a concrete dry run prints the framed preview and exits 0. -/
theorem dry_run_no_network_witness :
    main_run dryArgs noUrlWorld
      = some { exitCode := 0
               stdout := ["=== DRY RUN — Message preview ===\n", sampleMessage, "\n=== End preview ==="]
               stderr := [], requests := [] } :=
  (dry_run_no_network dryArgs noUrlWorld rfl).2.1 sampleMessage rfl (by decide)

/-- Claim C10: resolution discards empty-string webhook values, not just
missing ones — `--webhook-url ""` falls back to the environment variable;
if the resolved value is itself the empty string the program exits with the
configuration error before any POST, and if the environment holds a
non-empty URL the single POST goes to that URL. -/
theorem empty_webhook_fallback (args : Args) (w : World) (msg : String)
    (hrc : w.gh.returncode = 0)
    (hfmt : format_message w.gh.stdout args.summary = some msg)
    (hdry : args.dry_run = false)
    (harg : args.webhook_url = some ("")) :
    (∀ e : Option String, pyOrStr (some ("")) e = e)
    ∧ (w.env_webhook = none → main_run args w = some configRunResult)
    ∧ (w.env_webhook = some ("") → main_run args w = some configRunResult)
    ∧ (∀ u : String, w.env_webhook = some u → u ≠ "" →
        (main_run args w).isSome = true
        ∧ ∀ r, main_run args w = some r → r.requests = [slackRequest u msg]) := by
  refine ⟨fun e => rfl, ?_, ?_, ?_⟩
  · intro henv
    refine main_run_config args w msg hrc hfmt hdry ?_
    rw [harg, henv]
    rfl
  · intro henv
    refine main_run_config_empty args w msg hrc hfmt hdry ?_
    rw [harg, henv]
    rfl
  · intro u henv hu
    have hres : pyOrStr args.webhook_url w.env_webhook = some u := by
      rw [harg, henv]
      rfl
    have hmain := main_run_send args w msg u hrc hfmt hdry hres hu
    constructor
    · rw [hmain]
      by_cases hok : (post_to_slack w.net u msg).ok = true
      · rw [if_pos hok]
        rfl
      · rw [if_neg hok]
        rfl
    · intro r hr
      rw [hmain] at hr
      by_cases hok : (post_to_slack w.net u msg).ok = true
      · rw [if_pos hok] at hr
        injection hr with hr2
        rw [← hr2]
        exact post_to_slack_requests_eq w.net u msg
      · rw [if_neg hok] at hr
        injection hr with hr2
        rw [← hr2]
        exact post_to_slack_requests_eq w.net u msg

/-- Witness for C10: with `--webhook-url ""` and the URL in the environment,
the run happens and its single POST targets the environment URL. -/
theorem empty_webhook_fallback_witness :
    (main_run emptyArgArgs envWorld).isSome = true
    ∧ ((main_run emptyArgArgs envWorld).getD configRunResult).requests
        = [slackRequest ("https://hooks.example/env") sampleMessage] := by
  have h := (empty_webhook_fallback emptyArgArgs envWorld sampleMessage rfl (by decide) rfl
    rfl).2.2.2 ("https://hooks.example/env") rfl (by decide)
  exact ⟨h.1, h.2 _ (by decide)⟩
